import Mathlib

/-!
Verification development for the iterative reflection / convergence-control
workflow of this repository.

The definitions below are a shallow embedding of:
- `reflection/sql_agent/adaptive_sql_workflow.py`
  (`should_stop_iteration`, `run_adaptive_sql_workflow`, `_build_result`),
- `reflection/chart_workflow/workflow.py` (`run_reflection_workflow`).

Modelling conventions:
- Python exceptions raised by injected collaborator functions are modelled by
  those functions returning `Except ε`; an uncaught exception propagating out
  of the workflow is the workflow returning `Except.error`.
- A pandas `DataFrame` is modelled by the only features the workflow consults:
  its column list, its `empty` flag, and the first value of its `error` column
  (`df["error"].iloc[0]`).
- `print` calls are I/O-only side channels and are dropped.
- Python `int` is `Int`; `range(a, b)` is `intRange a b`.
- Python `str.strip()` is `pyStrip`: drop leading and trailing whitespace.
-/

namespace AgenticReflection

/-- Python `str.strip()`: the string without leading and trailing
whitespace (defined on the character list so that it computes). -/
def pyStrip (s : String) : String :=
  ⟨(((s.data.dropWhile Char.isWhitespace).reverse.dropWhile
      Char.isWhitespace).reverse)⟩

/-- Observable features, used by the SQL workflow, of a pandas DataFrame:
`columns` models `df.columns`, `empty` models `df.empty`, and `errorFirst`
models the value `df["error"].iloc[0]` read when the `error` column exists. -/
structure DataFrame where
  columns : List String
  empty : Bool
  errorFirst : String
deriving Repr, DecidableEq

/-- Embeds the dataclass `SQLIterationResult` of
`reflection/sql_agent/adaptive_sql_workflow.py`. -/
structure SQLIterationResult where
  iteration : Int
  sql_query : String
  result : DataFrame
  feedback : Option String
  has_error : Bool
  error_message : Option String
deriving Repr, DecidableEq

/-- Embeds the dataclass `SQLWorkflowConfig` (same defaults as the source). -/
structure SQLWorkflowConfig where
  generation_model : String := "gpt-4o-mini"
  evaluation_model : String := "gpt-4o"
  max_iterations : Int := 3
  stop_on_convergence : Bool := true
  stop_on_success : Bool := true
  min_iterations : Int := 1
deriving Repr, DecidableEq

/-- The test `not current.feedback or not current.feedback.strip()` on the
optional feedback field (`None`, `""`, and whitespace-only are all falsy). -/
def feedbackMissing : Option String → Bool
  | none => true
  | some s => s == "" || pyStrip s == ""

/-- Embeds `should_stop_iteration` (adaptive_sql_workflow.py, lines 41-89).
`iterations.reverse` puts `current = iterations[-1]` first and
`previous = iterations[-2]` second; the guards appear in source order:
max iterations, min iterations, success, identical convergence, no feedback,
regression. -/
def should_stop_iteration (iterations : List SQLIterationResult)
    (config : SQLWorkflowConfig) : Bool × String :=
  match iterations.reverse with
  | [] => (false, "")
  | current :: rest =>
    if (iterations.length : Int) ≥ config.max_iterations then
      (true, "Reached max iterations (" ++ toString config.max_iterations ++ ")")
    else if (iterations.length : Int) < config.min_iterations then
      (false, "")
    else if config.stop_on_success && !current.has_error
        && !current.result.empty && !(current.result.columns.contains "error") then
      (true, "SQL executed successfully with valid results")
    else
      match rest.head? with
      | none => (false, "")
      | some previous =>
        if config.stop_on_convergence
            && pyStrip current.sql_query == pyStrip previous.sql_query then
          (true, "SQL query converged (identical to previous)")
        else if config.stop_on_convergence && feedbackMissing current.feedback then
          (true, "No feedback provided (model satisfied)")
        else if current.has_error && !previous.has_error then
          (true, "Refinement introduced errors (reverting to previous)")
        else (false, "")

/-- The best-iteration scan of `_build_result` (lines 209-217): the first
record of `reversed(iterations)` without an error, else `iterations[-1]`
(`getLast?` is `none` exactly when that last indexing would raise). -/
def bestIteration (iterations : List SQLIterationResult) :
    Option SQLIterationResult :=
  match iterations.reverse.find? (fun it => !it.has_error) with
  | some it => some it
  | none => iterations.getLast?

/-- Exceptions escaping a workflow run: either an exception raised by an
injected collaborator (`external`), or the `IndexError` a Python `[-1]` on an
empty list would raise. -/
inductive WorkflowError (ε : Type) where
  | external (e : ε)
  | indexError
deriving Repr, DecidableEq

/-- Embeds the dictionary returned by `_build_result`. -/
structure SQLWorkflowResult where
  iterations : List SQLIterationResult
  best_iteration : SQLIterationResult
  final_sql : String
  final_result : DataFrame
  total_iterations : Nat
  stop_reason : String
  success : Bool
deriving Repr, DecidableEq

/-- Embeds `_build_result` (adaptive_sql_workflow.py, lines 207-227); Lean
does not allow a leading underscore here. The `indexError` branch is the
`iterations[-1]` indexing of an empty history. -/
def build_result {ε : Type} (iterations : List SQLIterationResult)
    (stop_reason : String) : Except (WorkflowError ε) SQLWorkflowResult :=
  match bestIteration iterations with
  | none => .error .indexError
  | some best =>
    .ok { iterations := iterations
          best_iteration := best
          final_sql := best.sql_query
          final_result := best.result
          total_iterations := iterations.length
          stop_reason := stop_reason
          success := !best.has_error }

/-- `lo :: lo+1 :: ... `, `n` entries. -/
def intRangeAux : Nat → Int → List Int
  | 0, _ => []
  | Nat.succ n, x => x :: intRangeAux n (x + 1)

/-- Python `range(lo, hi)` over `Int`. -/
def intRange (lo hi : Int) : List Int :=
  intRangeAux (hi - lo).toNat lo

/-- The record appended for iteration 1 (lines 139-146): `has_error` is
`"error" in df.columns` and `error_message` is `df["error"].iloc[0]` when
the error column exists. -/
def initialRecord (sql_v1 : String) (df_v1 : DataFrame) : SQLIterationResult :=
  { iteration := 1
    sql_query := sql_v1
    result := df_v1
    feedback := none
    has_error := df_v1.columns.contains "error"
    error_message :=
      if df_v1.columns.contains "error" then some df_v1.errorFirst else none }

/-- The record appended for a refinement iteration (lines 186-193). -/
def refinedRecord (iteration_num : Int) (refined_sql : String)
    (refined_df : DataFrame) (feedback : String) : SQLIterationResult :=
  { iteration := iteration_num
    sql_query := refined_sql
    result := refined_df
    feedback := some feedback
    has_error := refined_df.columns.contains "error"
    error_message :=
      if refined_df.columns.contains "error" then some refined_df.errorFirst
      else none }

/-- Embeds the refinement loop `for iteration_num in range(2,
config.max_iterations + 1)` of `run_adaptive_sql_workflow` (lines 158-203).
`nums` is the remaining part of the range. On exhaustion the source reaches
`return _build_result(iterations, ... else "Max iterations reached")`; a
`True` stop decision breaks with the decision's reason; a raising
`evaluate_and_refine_fn` propagates. -/
def refineLoop {ε : Type} (db_path question schema : String)
    (config : SQLWorkflowConfig)
    (execute_sql_fn : String → String → DataFrame)
    (evaluate_and_refine_fn :
      String → String → DataFrame → String → String → Except ε (String × String))
    (nums : List Int) (iterations : List SQLIterationResult)
    (previous_sql : String) (previous_df : DataFrame) :
    Except (WorkflowError ε) (List SQLIterationResult × String) :=
  match nums with
  | [] => .ok (iterations, "Max iterations reached")
  | iteration_num :: rest =>
    match evaluate_and_refine_fn question previous_sql previous_df schema
        config.evaluation_model with
    | .error e => .error (.external e)
    | .ok (feedback, refined_sql) =>
      let refined_df := execute_sql_fn refined_sql db_path
      let iterations' :=
        iterations ++ [refinedRecord iteration_num refined_sql refined_df feedback]
      match should_stop_iteration iterations' config with
      | (true, reason) => .ok (iterations', reason)
      | (false, _) =>
        refineLoop db_path question schema config execute_sql_fn
          evaluate_and_refine_fn rest iterations' refined_sql refined_df

/-- Embeds `run_adaptive_sql_workflow` (lines 92-204). The injected
collaborators `get_schema_fn`, `generate_sql_fn` and `evaluate_and_refine_fn`
may raise (return `.error`); `execute_sql_fn` surfaces failures as an `error`
column per its contract, so it is total. -/
def run_adaptive_sql_workflow {ε : Type} (db_path question : String)
    (config : SQLWorkflowConfig)
    (get_schema_fn : String → Except ε String)
    (generate_sql_fn : String → String → String → Except ε String)
    (execute_sql_fn : String → String → DataFrame)
    (evaluate_and_refine_fn :
      String → String → DataFrame → String → String → Except ε (String × String)) :
    Except (WorkflowError ε) SQLWorkflowResult :=
  match get_schema_fn db_path with
  | .error e => .error (.external e)
  | .ok schema =>
    match generate_sql_fn question schema config.generation_model with
    | .error e => .error (.external e)
    | .ok sql_v1 =>
      let df_v1 := execute_sql_fn sql_v1 db_path
      let iterations := [initialRecord sql_v1 df_v1]
      match should_stop_iteration iterations config with
      | (true, reason) => build_result iterations reason
      | (false, _) =>
        match refineLoop db_path question schema config execute_sql_fn
            evaluate_and_refine_fn (intRange 2 (config.max_iterations + 1))
            iterations sql_v1 df_v1 with
        | .error e => .error e
        | .ok (iters, reason) => build_result iters reason

/-- Embeds the dataclass `ChartWorkflowConfig` of
`reflection/chart_workflow/workflow.py` (paths kept as strings). -/
structure ChartWorkflowConfig where
  generation_model : String
  reflection_model : String
  image_basename : String := "chart"
  output_dir : String := "."
  sample_rows : Int := 5
  max_iterations : Int := 2
  stop_on_convergence : Bool := true
  save_final_code : Bool := true
deriving Repr, DecidableEq

/-- Embeds the dataclass `IterationResult` of the chart workflow; `γ` is the
opaque globals namespace returned by `execute_python`. -/
structure IterationResult (γ : Type) where
  iteration : Int
  code : String
  chart_path : String
  feedback : Option String
  globals_namespace : γ
deriving Repr, DecidableEq

/-- Embeds the dataclass `WorkflowArtifacts` (only the fields the run
returns; the derived properties are omitted). -/
structure WorkflowArtifacts (γ : Type) where
  instruction : String
  iterations : List (IterationResult γ)
  final_code_path : Option String
deriving Repr, DecidableEq

/-- The chart path `output_dir / f"{basename}_v{i}.png"`. -/
def chartPath (config : ChartWorkflowConfig) (i : Int) : String :=
  config.output_dir ++ "/" ++ config.image_basename ++ "_v" ++ toString i
    ++ ".png"

/-- `instruction or suggest_initial_instruction(df)` (workflow.py, line 120):
an absent or empty (falsy) instruction falls back to the suggestion. -/
def resolveInstruction {δ : Type} (instruction : Option String)
    (suggest_initial_instruction : δ → String) (df : δ) : String :=
  match instruction with
  | some s => if s == "" then suggest_initial_instruction df else s
  | none => suggest_initial_instruction df

/-- The `IterationResult` appended for chart iteration 1 (workflow.py,
lines 143-151). -/
def initialChartRecord {γ : Type} (code_v1 chart_v1_path : String) (g : γ) :
    IterationResult γ :=
  { iteration := 1
    code := code_v1
    chart_path := chart_v1_path
    feedback := none
    globals_namespace := g }

/-- The `IterationResult` appended for a chart refinement iteration
(workflow.py, lines 180-188). -/
def chartRecord {γ : Type} (iteration_index : Int)
    (candidate_code chart_path feedback : String) (g : γ) :
    IterationResult γ :=
  { iteration := iteration_index
    code := candidate_code
    chart_path := chart_path
    feedback := some feedback
    globals_namespace := g }

/-- Embeds the refinement loop `for iteration_index in range(2, max_iters +
1)` of `run_reflection_workflow` (workflow.py, lines 158-191). The source
checks convergence (identical code after stripping, or empty feedback)
BEFORE executing the candidate and appending its record; on convergence it
breaks with the history unchanged. -/
def chartLoop {ε δ γ : Type} (df : δ) (config : ChartWorkflowConfig)
    (resolved_instruction : String)
    (reflect_on_chart :
      String → String → String → String → String → Except ε (String × String))
    (execute_python : String → δ → Except ε γ)
    (nums : List Int) (iterations : List (IterationResult γ))
    (previous_code previous_chart_path : String) :
    Except (WorkflowError ε) (List (IterationResult γ)) :=
  match nums with
  | [] => .ok iterations
  | iteration_index :: rest =>
    let chart_path := chartPath config iteration_index
    match reflect_on_chart previous_chart_path resolved_instruction
        config.reflection_model chart_path previous_code with
    | .error e => .error (.external e)
    | .ok (feedback, candidate_code) =>
      if config.stop_on_convergence
          && (pyStrip candidate_code == pyStrip previous_code
            || pyStrip feedback == "") then
        .ok iterations
      else
        match execute_python candidate_code df with
        | .error e => .error (.external e)
        | .ok globals_namespace =>
          let iterations' := iterations ++
            [chartRecord iteration_index candidate_code chart_path feedback
              globals_namespace]
          chartLoop df config resolved_instruction reflect_on_chart
            execute_python rest iterations' candidate_code chart_path

/-- Embeds `run_reflection_workflow` (workflow.py, lines 84-205). Dataset
loading, directory creation and prompt-context construction are I/O and
prompt glue performed by collaborators; the loaded dataframe is the opaque
`df : δ`. `generate_initial_code` gets the instruction, model and output
path; `reflect_on_chart` gets the previous chart path, instruction, model,
output path and previous code. Writing the final code file is I/O; the run
keeps its path, and `iterations.getLast?` is the `iterations[-1].code`
access performed by the write. -/
def run_reflection_workflow {ε δ γ : Type} (df : δ)
    (instruction : Option String) (config : ChartWorkflowConfig)
    (suggest_initial_instruction : δ → String)
    (generate_initial_code : String → String → String → Except ε String)
    (execute_python : String → δ → Except ε γ)
    (reflect_on_chart :
      String → String → String → String → String → Except ε (String × String)) :
    Except (WorkflowError ε) (WorkflowArtifacts γ) :=
  let resolved_instruction :=
    resolveInstruction instruction suggest_initial_instruction df
  let chart_v1_path := chartPath config 1
  match generate_initial_code resolved_instruction config.generation_model
      chart_v1_path with
  | .error e => .error (.external e)
  | .ok code_v1 =>
    match execute_python code_v1 df with
    | .error e => .error (.external e)
    | .ok globals_v1 =>
      let iterations : List (IterationResult γ) :=
        [initialChartRecord code_v1 chart_v1_path globals_v1]
      let max_iters := max 1 config.max_iterations
      match chartLoop df config resolved_instruction reflect_on_chart
          execute_python (intRange 2 (max_iters + 1)) iterations code_v1
          chart_v1_path with
      | .error e => .error e
      | .ok iters =>
        if config.save_final_code then
          match iters.getLast? with
          | none => .error .indexError
          | some _ =>
            .ok { instruction := resolved_instruction
                  iterations := iters
                  final_code_path := some (config.output_dir ++ "/"
                    ++ config.image_basename ++ "_final.py") }
        else
          .ok { instruction := resolved_instruction
                iterations := iters
                final_code_path := none }

/-! ### Helper lemmas -/

lemma intRange_nil {lo hi : Int} (h : hi ≤ lo) : intRange lo hi = [] := by
  have h0 : (hi - lo).toNat = 0 := by omega
  rw [intRange, h0]
  rfl

lemma intRange_cons {lo hi : Int} (h : lo < hi) :
    intRange lo hi = lo :: intRange (lo + 1) hi := by
  have h0 : (hi - lo).toNat = (hi - (lo + 1)).toNat + 1 := by omega
  rw [intRange, h0, intRangeAux, intRange]

lemma intRange_eq_cons {lo hi n : Int} {rest : List Int}
    (h : intRange lo hi = n :: rest) :
    lo < hi ∧ n = lo ∧ rest = intRange (lo + 1) hi := by
  rcases lt_or_ge lo hi with hlt | hge
  · rw [intRange_cons hlt] at h
    exact ⟨hlt, (List.cons.injEq _ _ _ _ ▸ h).1.symm, (List.cons.injEq _ _ _ _ ▸ h).2.symm⟩
  · rw [intRange_nil hge] at h
    cases h

/-- `history[i].index == i + 1` for every position `i`, via an index
projection `idx`. -/
def indicesContiguous {α : Type} (idx : α → Int) (l : List α) : Prop :=
  ∀ i (h : i < l.length), idx (l[i]) = (i : Int) + 1

lemma indicesContiguous_append {α : Type} (idx : α → Int) (l : List α) (a : α)
    (hl : indicesContiguous idx l) (ha : idx a = (l.length : Int) + 1) :
    indicesContiguous idx (l ++ [a]) := by
  intro i h
  rcases Nat.lt_or_ge i l.length with hi | hi
  · rw [List.getElem_append_left hi]
    exact hl i hi
  · have hlen : i < l.length + 1 := by
      simpa [List.length_append] using h
    have hieq : i = l.length := by omega
    rw [List.getElem_concat_length l a i hieq]
    rw [hieq]
    exact ha

lemma build_result_ok {ε : Type} {l : List SQLIterationResult}
    {reason : String} {r : SQLWorkflowResult}
    (h : build_result (ε := ε) l reason = .ok r) :
    r.iterations = l ∧ r.stop_reason = reason ∧ r.best_iteration ∈ l := by
  unfold build_result at h
  cases hb : bestIteration l with
  | none => rw [hb] at h; cases h
  | some best =>
    rw [hb] at h
    cases h
    refine ⟨rfl, rfl, ?_⟩
    unfold bestIteration at hb
    cases hf : l.reverse.find? (fun it => !it.has_error) with
    | some it =>
      rw [hf] at hb
      cases hb
      have := List.mem_of_find?_eq_some hf
      simpa using this
    | none =>
      rw [hf] at hb
      exact List.mem_of_mem_getLast? hb

lemma bestIteration_eq_none {l : List SQLIterationResult}
    (h : bestIteration l = none) : l = [] := by
  unfold bestIteration at h
  cases hf : l.reverse.find? (fun it => !it.has_error) with
  | some it => rw [hf] at h; cases h
  | none =>
    rw [hf] at h
    cases l with
    | nil => rfl
    | cons a t => simp [List.getLast?_eq_getLast] at h

lemma build_result_ne_indexError {ε : Type} {l : List SQLIterationResult}
    {reason : String} (hne : l ≠ []) :
    build_result (ε := ε) l reason ≠ .error .indexError := by
  intro h
  unfold build_result at h
  cases hb : bestIteration l with
  | none => exact hne (bestIteration_eq_none hb)
  | some best => rw [hb] at h; cases h

/-- Any `True` stop decision happens at or beyond one of the two bounds. -/
lemma should_stop_length {l : List SQLIterationResult}
    {c : SQLWorkflowConfig} {r : String}
    (h : should_stop_iteration l c = (true, r)) :
    c.max_iterations ≤ (l.length : Int) ∨ c.min_iterations ≤ (l.length : Int) := by
  unfold should_stop_iteration at h
  cases hrev : l.reverse with
  | nil => rw [hrev] at h; cases h
  | cons current rest =>
    rw [hrev] at h
    cases rest with
    | nil =>
      dsimp only [List.head?] at h
      split_ifs at h with h1 h2 h3
      · exact Or.inl h1
      · simp at h
      · exact Or.inr (by omega)
      · simp at h
    | cons previous rest2 =>
      dsimp only [List.head?] at h
      split_ifs at h with h1 h2 h3 h4 h5 h6
      · exact Or.inl h1
      · simp at h
      all_goals exact Or.inr (by omega)

lemma refineLoop_length_le {ε : Type} (db_path question schema : String)
    (config : SQLWorkflowConfig) (ex : String → String → DataFrame)
    (ev : String → String → DataFrame → String → String →
      Except ε (String × String)) :
    ∀ (nums : List Int) (iterations : List SQLIterationResult)
      (psql : String) (pdf : DataFrame) (iters : List SQLIterationResult)
      (reason : String),
      refineLoop db_path question schema config ex ev nums iterations psql pdf
        = .ok (iters, reason) →
      iterations.length ≤ iters.length := by
  intro nums
  induction nums with
  | nil =>
    intro iterations psql pdf iters reason h
    simp only [refineLoop, Except.ok.injEq, Prod.mk.injEq] at h
    rw [h.1]
  | cons n rest ih =>
    intro iterations psql pdf iters reason h
    unfold refineLoop at h
    cases hev : ev question psql pdf schema config.evaluation_model with
    | error e => rw [hev] at h; cases h
    | ok p =>
      obtain ⟨feedback, refined_sql⟩ := p
      rw [hev] at h
      dsimp only at h
      cases hss : should_stop_iteration
          (iterations ++ [refinedRecord n refined_sql (ex refined_sql db_path)
            feedback]) config with
      | mk stop reason2 =>
        rw [hss] at h
        cases stop with
        | true =>
          simp only [Except.ok.injEq, Prod.mk.injEq] at h
          rw [← h.1, List.length_append]
          omega
        | false =>
          have step := ih (iterations ++ [refinedRecord n refined_sql
            (ex refined_sql db_path) feedback]) refined_sql
            (ex refined_sql db_path) iters reason h
          rw [List.length_append] at step
          omega

lemma intRange_eq_nil {lo hi : Int} (h : intRange lo hi = []) : hi ≤ lo := by
  by_cases hlt : lo < hi
  · rw [intRange_cons hlt] at h; cases h
  · omega

lemma refineLoop_bounds {ε : Type} (db_path question schema : String)
    (config : SQLWorkflowConfig) (ex : String → String → DataFrame)
    (ev : String → String → DataFrame → String → String →
      Except ε (String × String))
    (hmm : config.min_iterations ≤ config.max_iterations) :
    ∀ (nums : List Int) (iterations : List SQLIterationResult)
      (psql : String) (pdf : DataFrame) (iters : List SQLIterationResult)
      (reason : String),
      nums = intRange ((iterations.length : Int) + 1)
        (config.max_iterations + 1) →
      (iterations.length : Int) ≤ config.max_iterations →
      refineLoop db_path question schema config ex ev nums iterations psql pdf
        = .ok (iters, reason) →
      config.min_iterations ≤ (iters.length : Int)
        ∧ (iters.length : Int) ≤ config.max_iterations := by
  intro nums
  induction nums with
  | nil =>
    intro iterations psql pdf iters reason hnums hlen h
    simp only [refineLoop, Except.ok.injEq, Prod.mk.injEq] at h
    have hexh := intRange_eq_nil hnums.symm
    obtain ⟨h1, h2⟩ := h
    subst h1
    constructor <;> omega
  | cons n rest ih =>
    intro iterations psql pdf iters reason hnums hlen h
    obtain ⟨hlt, hn, hrest⟩ := intRange_eq_cons hnums.symm
    unfold refineLoop at h
    cases hev : ev question psql pdf schema config.evaluation_model with
    | error e => rw [hev] at h; cases h
    | ok p =>
      obtain ⟨feedback, refined_sql⟩ := p
      rw [hev] at h
      dsimp only at h
      cases hss : should_stop_iteration
          (iterations ++ [refinedRecord n refined_sql (ex refined_sql db_path)
            feedback]) config with
      | mk stop reason2 =>
        rw [hss] at h
        cases stop with
        | true =>
          simp only [Except.ok.injEq, Prod.mk.injEq] at h
          have hb := should_stop_length hss
          rw [List.length_append] at hb
          rw [← h.1, List.length_append]
          simp only [List.length_singleton] at hb ⊢
          constructor <;> omega
        | false =>
          have hlen1 : (((iterations ++ [refinedRecord n refined_sql
              (ex refined_sql db_path) feedback]).length : Int))
              = (iterations.length : Int) + 1 := by
            rw [List.length_append]
            push_cast
            simp
          refine ih (iterations ++ [refinedRecord n refined_sql
              (ex refined_sql db_path) feedback]) refined_sql
              (ex refined_sql db_path) iters reason ?_ ?_ h
          · rw [hlen1]
            exact hrest
          · rw [hlen1]
            omega

lemma refineLoop_contig {ε : Type} (db_path question schema : String)
    (config : SQLWorkflowConfig) (ex : String → String → DataFrame)
    (ev : String → String → DataFrame → String → String →
      Except ε (String × String)) (hi : Int) :
    ∀ (nums : List Int) (iterations : List SQLIterationResult)
      (psql : String) (pdf : DataFrame) (iters : List SQLIterationResult)
      (reason : String),
      nums = intRange ((iterations.length : Int) + 1) hi →
      indicesContiguous (fun it => it.iteration) iterations →
      refineLoop db_path question schema config ex ev nums iterations psql pdf
        = .ok (iters, reason) →
      indicesContiguous (fun it => it.iteration) iters := by
  intro nums
  induction nums with
  | nil =>
    intro iterations psql pdf iters reason hnums hctg h
    simp only [refineLoop, Except.ok.injEq, Prod.mk.injEq] at h
    rw [← h.1]
    exact hctg
  | cons n rest ih =>
    intro iterations psql pdf iters reason hnums hctg h
    obtain ⟨hlt, hn, hrest⟩ := intRange_eq_cons hnums.symm
    unfold refineLoop at h
    cases hev : ev question psql pdf schema config.evaluation_model with
    | error e => rw [hev] at h; cases h
    | ok p =>
      obtain ⟨feedback, refined_sql⟩ := p
      rw [hev] at h
      dsimp only at h
      have hctg2 : indicesContiguous (fun it => it.iteration)
          (iterations ++ [refinedRecord n refined_sql (ex refined_sql db_path)
            feedback]) := by
        refine indicesContiguous_append _ _ _ hctg ?_
        simp only [refinedRecord]
        omega
      cases hss : should_stop_iteration
          (iterations ++ [refinedRecord n refined_sql (ex refined_sql db_path)
            feedback]) config with
      | mk stop reason2 =>
        rw [hss] at h
        cases stop with
        | true =>
          simp only [Except.ok.injEq, Prod.mk.injEq] at h
          rw [← h.1]
          exact hctg2
        | false =>
          have hlen1 : (((iterations ++ [refinedRecord n refined_sql
              (ex refined_sql db_path) feedback]).length : Int))
              = (iterations.length : Int) + 1 := by
            rw [List.length_append]
            push_cast
            simp
          refine ih (iterations ++ [refinedRecord n refined_sql
              (ex refined_sql db_path) feedback]) refined_sql
              (ex refined_sql db_path) iters reason ?_ hctg2 h
          rw [hlen1]
          exact hrest

lemma refineLoop_reason {ε : Type} (db_path question schema : String)
    (config : SQLWorkflowConfig) (ex : String → String → DataFrame)
    (ev : String → String → DataFrame → String → String →
      Except ε (String × String)) :
    ∀ (nums : List Int) (iterations : List SQLIterationResult)
      (psql : String) (pdf : DataFrame) (iters : List SQLIterationResult)
      (reason : String),
      refineLoop db_path question schema config ex ev nums iterations psql pdf
        = .ok (iters, reason) →
      should_stop_iteration iters config = (true, reason)
        ∨ reason = "Max iterations reached" := by
  intro nums
  induction nums with
  | nil =>
    intro iterations psql pdf iters reason h
    simp only [refineLoop, Except.ok.injEq, Prod.mk.injEq] at h
    exact Or.inr h.2.symm
  | cons n rest ih =>
    intro iterations psql pdf iters reason h
    unfold refineLoop at h
    cases hev : ev question psql pdf schema config.evaluation_model with
    | error e => rw [hev] at h; cases h
    | ok p =>
      obtain ⟨feedback, refined_sql⟩ := p
      rw [hev] at h
      dsimp only at h
      cases hss : should_stop_iteration
          (iterations ++ [refinedRecord n refined_sql (ex refined_sql db_path)
            feedback]) config with
      | mk stop reason2 =>
        rw [hss] at h
        cases stop with
        | true =>
          simp only [Except.ok.injEq, Prod.mk.injEq] at h
          rw [← h.1, ← h.2]
          exact Or.inl hss
        | false =>
          exact ih _ refined_sql (ex refined_sql db_path) iters reason h

lemma chartLoop_length_le {ε δ γ : Type} (df : δ)
    (config : ChartWorkflowConfig) (instr : String)
    (refl_fn : String → String → String → String → String →
      Except ε (String × String))
    (exe : String → δ → Except ε γ) :
    ∀ (nums : List Int) (iterations : List (IterationResult γ))
      (pcode ppath : String) (iters : List (IterationResult γ)),
      chartLoop df config instr refl_fn exe nums iterations pcode ppath
        = .ok iters →
      iterations.length ≤ iters.length := by
  intro nums
  induction nums with
  | nil =>
    intro iterations pcode ppath iters h
    simp only [chartLoop, Except.ok.injEq] at h
    rw [h]
  | cons n rest ih =>
    intro iterations pcode ppath iters h
    unfold chartLoop at h
    dsimp only at h
    cases hr : refl_fn ppath instr config.reflection_model
        (chartPath config n) pcode with
    | error e => rw [hr] at h; cases h
    | ok p =>
      obtain ⟨feedback, candidate_code⟩ := p
      rw [hr] at h
      dsimp only at h
      split_ifs at h with hconv
      · simp only [Except.ok.injEq] at h
        rw [h]
      · cases hx : exe candidate_code df with
        | error e => rw [hx] at h; cases h
        | ok g =>
          rw [hx] at h
          dsimp only at h
          have step := ih _ candidate_code (chartPath config n) iters h
          rw [List.length_append] at step
          omega

lemma chartLoop_contig {ε δ γ : Type} (df : δ)
    (config : ChartWorkflowConfig) (instr : String)
    (refl_fn : String → String → String → String → String →
      Except ε (String × String))
    (exe : String → δ → Except ε γ) (hi : Int) :
    ∀ (nums : List Int) (iterations : List (IterationResult γ))
      (pcode ppath : String) (iters : List (IterationResult γ)),
      nums = intRange ((iterations.length : Int) + 1) hi →
      indicesContiguous (fun it => it.iteration) iterations →
      chartLoop df config instr refl_fn exe nums iterations pcode ppath
        = .ok iters →
      indicesContiguous (fun it => it.iteration) iters := by
  intro nums
  induction nums with
  | nil =>
    intro iterations pcode ppath iters hnums hctg h
    simp only [chartLoop, Except.ok.injEq] at h
    rw [← h]
    exact hctg
  | cons n rest ih =>
    intro iterations pcode ppath iters hnums hctg h
    obtain ⟨hlt, hn, hrest⟩ := intRange_eq_cons hnums.symm
    unfold chartLoop at h
    dsimp only at h
    cases hr : refl_fn ppath instr config.reflection_model
        (chartPath config n) pcode with
    | error e => rw [hr] at h; cases h
    | ok p =>
      obtain ⟨feedback, candidate_code⟩ := p
      rw [hr] at h
      dsimp only at h
      split_ifs at h with hconv
      · simp only [Except.ok.injEq] at h
        rw [← h]
        exact hctg
      · cases hx : exe candidate_code df with
        | error e => rw [hx] at h; cases h
        | ok g =>
          rw [hx] at h
          dsimp only at h
          have hctg2 : indicesContiguous (fun it => it.iteration)
              (iterations ++ [chartRecord n candidate_code
                (chartPath config n) feedback g]) := by
            refine indicesContiguous_append _ _ _ hctg ?_
            simp only [chartRecord]
            omega
          have hlen1 : (((iterations ++ [chartRecord n candidate_code
              (chartPath config n) feedback g]).length : Int))
              = (iterations.length : Int) + 1 := by
            rw [List.length_append]
            push_cast
            simp
          refine ih _ candidate_code (chartPath config n) iters ?_ hctg2 h
          rw [hlen1]
          exact hrest

/-- The max-iterations stop reason (whatever the printed bound) is never the
converged-identical stop reason: the first characters differ. -/
lemma reached_max_ne (s : String) :
    ("Reached max iterations (" ++ s ++ ")")
      ≠ "SQL query converged (identical to previous)" := by
  intro h
  have h1 : ("Reached max iterations (" ++ s ++ ")").data.head? = some 'R' := by
    rw [String.data_append, String.data_append]
    rfl
  rw [h] at h1
  exact absurd h1 (by decide)

/-- A stop decision carrying the converged-identical reason can only come
from the identical-candidate rule: the two most recent records have equal
stripped SQL. -/
lemma should_stop_converged {l : List SQLIterationResult}
    {c : SQLWorkflowConfig}
    (h : should_stop_iteration l c
      = (true, "SQL query converged (identical to previous)")) :
    ∃ current previous rest2, l.reverse = current :: previous :: rest2
      ∧ pyStrip current.sql_query = pyStrip previous.sql_query := by
  unfold should_stop_iteration at h
  cases hrev : l.reverse with
  | nil => rw [hrev] at h; cases h
  | cons current rest =>
    rw [hrev] at h
    cases rest with
    | nil =>
      dsimp only [List.head?] at h
      split_ifs at h with h1 h2 h3
      · simp only [Prod.mk.injEq] at h
        exact absurd h.2 (reached_max_ne _)
      · simp at h
      · simp only [Prod.mk.injEq] at h
        exact absurd h.2 (by decide)
      · simp at h
    | cons previous rest2 =>
      dsimp only [List.head?] at h
      split_ifs at h with h1 h2 h3 h4 h5 h6
      · simp only [Prod.mk.injEq] at h
        exact absurd h.2 (reached_max_ne _)
      · simp at h
      · simp only [Prod.mk.injEq] at h
        exact absurd h.2 (by decide)
      · refine ⟨current, previous, rest2, rfl, ?_⟩
        rw [Bool.and_eq_true] at h4
        exact eq_of_beq h4.2
      · simp only [Prod.mk.injEq] at h
        exact absurd h.2 (by decide)
      · simp only [Prod.mk.injEq] at h
        exact absurd h.2 (by decide)
      · simp at h

/-- Anatomy of a successful SQL run: schema extraction and initial
generation succeeded, and the result either comes from stopping right after
iteration 1 or from the refinement loop; the selected best iteration is
always a member of the history. -/
lemma run_ok_cases {ε : Type} {db_path question : String}
    {config : SQLWorkflowConfig} {gs : String → Except ε String}
    {gen : String → String → String → Except ε String}
    {ex : String → String → DataFrame}
    {ev : String → String → DataFrame → String → String →
      Except ε (String × String)} {r : SQLWorkflowResult}
    (h : run_adaptive_sql_workflow db_path question config gs gen ex ev
      = .ok r) :
    ∃ schema sql_v1,
      gs db_path = .ok schema
      ∧ gen question schema config.generation_model = .ok sql_v1
      ∧ ((should_stop_iteration [initialRecord sql_v1 (ex sql_v1 db_path)]
            config = (true, r.stop_reason)
          ∧ r.iterations = [initialRecord sql_v1 (ex sql_v1 db_path)])
        ∨ ((should_stop_iteration [initialRecord sql_v1 (ex sql_v1 db_path)]
              config).1 = false
          ∧ refineLoop db_path question schema config ex ev
              (intRange 2 (config.max_iterations + 1))
              [initialRecord sql_v1 (ex sql_v1 db_path)] sql_v1
              (ex sql_v1 db_path) = .ok (r.iterations, r.stop_reason)))
      ∧ r.best_iteration ∈ r.iterations := by
  unfold run_adaptive_sql_workflow at h
  cases hgs : gs db_path with
  | error e => rw [hgs] at h; cases h
  | ok schema =>
    rw [hgs] at h
    dsimp only at h
    cases hgen : gen question schema config.generation_model with
    | error e => rw [hgen] at h; cases h
    | ok sql_v1 =>
      rw [hgen] at h
      dsimp only at h
      refine ⟨schema, sql_v1, rfl, hgen, ?_⟩
      cases hss : should_stop_iteration
          [initialRecord sql_v1 (ex sql_v1 db_path)] config with
      | mk stop reason =>
        rw [hss] at h
        cases stop with
        | true =>
          obtain ⟨hit, hre, hmem⟩ := build_result_ok h
          refine ⟨Or.inl ⟨?_, hit⟩, hit.symm ▸ hmem⟩
          rw [hre]
        | false =>
          cases hloop : refineLoop db_path question schema config ex ev
              (intRange 2 (config.max_iterations + 1))
              [initialRecord sql_v1 (ex sql_v1 db_path)] sql_v1
              (ex sql_v1 db_path) with
          | error e => rw [hloop] at h; cases h
          | ok p =>
            obtain ⟨iters, reason2⟩ := p
            rw [hloop] at h
            obtain ⟨hit, hre, hmem⟩ := build_result_ok h
            refine ⟨Or.inr ⟨rfl, ?_⟩, hit.symm ▸ hmem⟩
            rw [hit, hre]

/-- Anatomy of a successful chart run: initial generation and execution
succeeded and the returned history is the refinement loop's output on the
singleton initial history. -/
lemma chart_run_ok_cases {ε δ γ : Type} {df : δ} {instruction : Option String}
    {config : ChartWorkflowConfig} {sug : δ → String}
    {gen : String → String → String → Except ε String}
    {exe : String → δ → Except ε γ}
    {refl_fn : String → String → String → String → String →
      Except ε (String × String)} {a : WorkflowArtifacts γ}
    (h : run_reflection_workflow df instruction config sug gen exe refl_fn
      = .ok a) :
    ∃ code_v1 g1,
      gen (resolveInstruction instruction sug df) config.generation_model
          (chartPath config 1) = .ok code_v1
      ∧ exe code_v1 df = .ok g1
      ∧ chartLoop df config (resolveInstruction instruction sug df) refl_fn
          exe (intRange 2 (max 1 config.max_iterations + 1))
          [initialChartRecord code_v1 (chartPath config 1) g1] code_v1
          (chartPath config 1) = .ok a.iterations := by
  unfold run_reflection_workflow at h
  dsimp only at h
  cases hgen : gen (resolveInstruction instruction sug df)
      config.generation_model (chartPath config 1) with
  | error e => rw [hgen] at h; cases h
  | ok code_v1 =>
    rw [hgen] at h
    dsimp only at h
    cases hexe : exe code_v1 df with
    | error e => rw [hexe] at h; cases h
    | ok g1 =>
      rw [hexe] at h
      dsimp only at h
      cases hloop : chartLoop df config
          (resolveInstruction instruction sug df) refl_fn exe
          (intRange 2 (max 1 config.max_iterations + 1))
          [initialChartRecord code_v1 (chartPath config 1) g1] code_v1
          (chartPath config 1) with
      | error e => rw [hloop] at h; cases h
      | ok iters =>
        rw [hloop] at h
        dsimp only at h
        refine ⟨code_v1, g1, rfl, hexe, ?_⟩
        cases hsave : config.save_final_code with
        | true =>
          rw [hsave] at h
          simp only [if_true] at h
          cases hlast : iters.getLast? with
          | none => rw [hlast] at h; cases h
          | some z =>
            rw [hlast] at h
            simp only [Except.ok.injEq] at h
            rw [← h]
            exact hloop
        | false =>
          rw [hsave] at h
          simp only [Bool.false_eq_true, if_false] at h
          simp only [Except.ok.injEq] at h
          rw [← h]
          exact hloop

/-! ### Claim theorems -/

/-- C1: Best-index selection: for every completed run history (non-empty),
`_build_result` selects the most recent iteration whose execution succeeded
(`has_error` false); if every iteration failed, it selects the last
iteration attempted. -/
theorem best_index_selection (l₁ l₂ m : List SQLIterationResult)
    (a : SQLIterationResult) (reason reason2 : String)
    (hsucc : a.has_error = false)
    (hafter : ∀ b ∈ l₂, b.has_error = true)
    (hm : m ≠ []) (hallfail : ∀ b ∈ m, b.has_error = true) :
    (∃ r, build_result (ε := Unit) (l₁ ++ a :: l₂) reason = .ok r
      ∧ r.best_iteration = a)
    ∧ (∃ r2, build_result (ε := Unit) m reason2 = .ok r2
      ∧ some r2.best_iteration = m.getLast?) := by
  constructor
  · have hfind : (l₁ ++ a :: l₂).reverse.find? (fun it => !it.has_error)
        = some a := by
      rw [List.reverse_append, List.reverse_cons, List.find?_append,
        List.find?_append]
      have h2 : l₂.reverse.find? (fun it => !it.has_error) = none := by
        rw [List.find?_eq_none]
        intro x hx
        simp [hafter x (List.mem_reverse.mp hx)]
      rw [h2]
      simp [List.find?, hsucc]
    have hb : bestIteration (l₁ ++ a :: l₂) = some a := by
      unfold bestIteration
      rw [hfind]
    cases hbr : build_result (ε := Unit) (l₁ ++ a :: l₂) reason with
    | error e =>
      exfalso
      unfold build_result at hbr
      rw [hb] at hbr
      cases hbr
    | ok r =>
      refine ⟨r, rfl, ?_⟩
      unfold build_result at hbr
      rw [hb] at hbr
      simp only [Except.ok.injEq] at hbr
      rw [← hbr]
  · have hfind2 : m.reverse.find? (fun it => !it.has_error) = none := by
      rw [List.find?_eq_none]
      intro x hx
      simp [hallfail x (List.mem_reverse.mp hx)]
    have hlast : m.getLast? = some (m.getLast hm) :=
      List.getLast?_eq_getLast m hm
    have hb2 : bestIteration m = some (m.getLast hm) := by
      unfold bestIteration
      rw [hfind2, hlast]
    cases hbr : build_result (ε := Unit) m reason2 with
    | error e =>
      exfalso
      unfold build_result at hbr
      rw [hb2] at hbr
      cases hbr
    | ok r2 =>
      refine ⟨r2, rfl, ?_⟩
      unfold build_result at hbr
      rw [hb2] at hbr
      simp only [Except.ok.injEq] at hbr
      rw [← hbr, hlast]

def dfPlainW : DataFrame := { columns := ["name"], empty := false, errorFirst := "" }

def dfErrW : DataFrame := { columns := ["error"], empty := false, errorFirst := "no such table" }

def itSucceeded : SQLIterationResult :=
  { iteration := 1, sql_query := "SELECT 1", result := dfPlainW,
    feedback := none, has_error := false, error_message := none }

def itFailed : SQLIterationResult :=
  { iteration := 2, sql_query := "SELECT x", result := dfErrW,
    feedback := some "fix it", has_error := true,
    error_message := some "no such table" }

/-- C1 witness: iteration 1 succeeds and iteration 2 fails; the selected
best iteration is iteration 1, and on an all-failed history the last
iteration is selected. -/
theorem best_index_selection_witness :
    (∃ r, build_result (ε := Unit) ([] ++ itSucceeded :: [itFailed]) "r"
        = .ok r ∧ r.best_iteration = itSucceeded)
    ∧ (∃ r2, build_result (ε := Unit) [itFailed] "r2" = .ok r2
      ∧ some r2.best_iteration = [itFailed].getLast?) :=
  best_index_selection [] [itFailed] [itFailed] itSucceeded "r" "r2" rfl
    (by decide) (by decide) (by decide)

/-- C3: Minimum-iterations override: whenever the history is shorter than
`min_iterations` (and `min_iterations ≤ max_iterations`), the stop decision
is CONTINUE, regardless of the content of the history. -/
theorem min_iterations_override (iterations : List SQLIterationResult)
    (config : SQLWorkflowConfig)
    (hmm : config.min_iterations ≤ config.max_iterations)
    (hlen : (iterations.length : Int) < config.min_iterations) :
    should_stop_iteration iterations config = (false, "") := by
  unfold should_stop_iteration
  cases hrev : iterations.reverse with
  | nil => rfl
  | cons current rest =>
    dsimp only
    rw [if_neg (by omega), if_pos (by omega)]

def cfgMinOverride : SQLWorkflowConfig :=
  { max_iterations := 5, stop_on_convergence := true,
    stop_on_success := true, min_iterations := 3 }

/-- C3 witness: a two-iteration history with identical candidates, empty
feedback, success, and regression all present still yields CONTINUE while
below the minimum. -/
theorem min_iterations_override_witness :
    should_stop_iteration [itSucceeded, itFailed] cfgMinOverride
      = (false, "") :=
  min_iterations_override [itSucceeded, itFailed] cfgMinOverride (by decide)
    (by decide)

def itIdenticalPrev : SQLIterationResult :=
  { iteration := 1, sql_query := "SELECT 1", result := dfPlainW,
    feedback := none, has_error := false, error_message := none }

def itIdenticalCur : SQLIterationResult :=
  { iteration := 2, sql_query := " SELECT 1 ", result := dfPlainW,
    feedback := some "please improve the aliasing",
    has_error := false, error_message := none }

def cfgSuccessAndConv : SQLWorkflowConfig :=
  { max_iterations := 5, stop_on_convergence := true,
    stop_on_success := true, min_iterations := 1 }

/-- C4 counterexample: a two-iteration history whose latest candidate is
identical (after stripping) to the previous one, with `stop_on_convergence`
on, the minimum satisfied and the maximum not reached, yet the stop reason
is the success reason, not the converged-identical reason, because the
success rule is checked first. -/
theorem success_beats_convergence_reason :
    should_stop_iteration [itIdenticalPrev, itIdenticalCur] cfgSuccessAndConv
        = (true, "SQL executed successfully with valid results")
      ∧ ((true, "SQL executed successfully with valid results") : Bool × String)
        ≠ (true, "SQL query converged (identical to previous)") := by
  constructor
  · rfl
  · decide

/-- C4 (amended): identical-candidate convergence fires with the
converged-identical reason — even with non-empty feedback — provided the
success rule does not fire first (success is disabled, or the latest
iteration has an error, or its result is empty or carries an error
column). -/
theorem converged_identical_stop (iterations : List SQLIterationResult)
    (config : SQLWorkflowConfig) (current previous : SQLIterationResult)
    (rest2 : List SQLIterationResult)
    (hrev : iterations.reverse = current :: previous :: rest2)
    (hconv : config.stop_on_convergence = true)
    (hident : pyStrip current.sql_query = pyStrip previous.sql_query)
    (hmin : config.min_iterations ≤ (iterations.length : Int))
    (hmax : (iterations.length : Int) < config.max_iterations)
    (hnosucc : config.stop_on_success = false ∨ current.has_error = true
      ∨ current.result.empty = true
      ∨ current.result.columns.contains "error" = true) :
    should_stop_iteration iterations config
      = (true, "SQL query converged (identical to previous)") := by
  unfold should_stop_iteration
  rw [hrev]
  dsimp only [List.head?]
  rw [if_neg (by omega), if_neg (by omega)]
  have hsucc : (config.stop_on_success && !current.has_error
      && !current.result.empty
      && !(current.result.columns.contains "error")) = false := by
    rcases hnosucc with hc | hc | hc | hc <;> rw [hc] <;> simp
  rw [if_neg (by simp only [hsucc]; decide)]
  rw [if_pos (by simp [hconv, hident])]

def dfEmptyRes : DataFrame :=
  { columns := ["name"], empty := true, errorFirst := "" }

def itConvPrev : SQLIterationResult :=
  { iteration := 1, sql_query := "SELECT a FROM t", result := dfEmptyRes,
    feedback := none, has_error := false, error_message := none }

def itConvCur : SQLIterationResult :=
  { iteration := 2, sql_query := "SELECT a FROM t  ", result := dfEmptyRes,
    feedback := some "looks fine but could use an alias",
    has_error := false, error_message := none }

/-- C4 witness: identical stripped candidates with non-empty feedback and an
empty result (so the success rule cannot fire) stop with the
converged-identical reason. -/
theorem converged_identical_stop_witness :
    should_stop_iteration [itConvPrev, itConvCur] cfgSuccessAndConv
      = (true, "SQL query converged (identical to previous)") :=
  converged_identical_stop [itConvPrev, itConvCur] cfgSuccessAndConv
    itConvCur itConvPrev [] rfl rfl rfl (by decide) (by decide)
    (Or.inr (Or.inr (Or.inl rfl)))

/-- C6: with the latest iteration free of errors and holding a non-empty
result without an error column, the minimum satisfied and the maximum not
reached, the stop decision is STOP with the success reason if and only if
`stop_on_success` is enabled — with no assumption on the convergence or
regression rules, since the success check precedes them; and with
`stop_on_success` disabled and no other stop rule firing, the decision is
CONTINUE. -/
theorem success_stop_iff_enabled (iterations : List SQLIterationResult)
    (config : SQLWorkflowConfig) (current : SQLIterationResult)
    (rest : List SQLIterationResult)
    (hrev : iterations.reverse = current :: rest)
    (hmin : config.min_iterations ≤ (iterations.length : Int))
    (hmax : (iterations.length : Int) < config.max_iterations)
    (hnoerr : current.has_error = false)
    (hnonempty : current.result.empty = false)
    (hnoerrcol : current.result.columns.contains "error" = false) :
    (should_stop_iteration iterations config
        = (true, "SQL executed successfully with valid results")
      ↔ config.stop_on_success = true)
    ∧ (config.stop_on_success = false →
      (∀ previous, rest.head? = some previous →
        config.stop_on_convergence = false
        ∨ (¬ pyStrip current.sql_query = pyStrip previous.sql_query
          ∧ feedbackMissing current.feedback = false)) →
      should_stop_iteration iterations config = (false, "")) := by
  constructor
  · constructor
    · intro h
      by_contra hs
      have hs' : config.stop_on_success = false := by
        cases hcs : config.stop_on_success
        · rfl
        · exact absurd hcs hs
      unfold should_stop_iteration at h
      rw [hrev] at h
      dsimp only at h
      rw [if_neg (by omega), if_neg (by omega)] at h
      rw [if_neg (by rw [hs']; simp)] at h
      cases hhd : rest.head? with
      | none =>
        rw [hhd] at h
        dsimp only at h
        exact absurd h (by decide)
      | some previous =>
        rw [hhd] at h
        dsimp only at h
        split_ifs at h
        all_goals exact absurd h (by decide)
    · intro hs
      unfold should_stop_iteration
      rw [hrev]
      dsimp only
      rw [if_neg (by omega), if_neg (by omega)]
      rw [if_pos (by rw [hs, hnoerr, hnonempty, hnoerrcol]; decide)]
  · intro hs hnoconv
    unfold should_stop_iteration
    rw [hrev]
    dsimp only
    rw [if_neg (by omega), if_neg (by omega)]
    rw [if_neg (by rw [hs]; simp)]
    cases hhd : rest.head? with
    | none => rfl
    | some previous =>
      dsimp only
      rcases hnoconv previous hhd with hc | ⟨hne, hfb⟩
      · rw [if_neg (by simp [hc]), if_neg (by simp [hc]),
          if_neg (by simp [hnoerr])]
      · rw [if_neg (by simp [hne]), if_neg (by simp [hfb]),
          if_neg (by simp [hnoerr])]

def cfgSuccessOn : SQLWorkflowConfig :=
  { max_iterations := 3, stop_on_convergence := true,
    stop_on_success := true, min_iterations := 1 }

def cfgSuccessOff : SQLWorkflowConfig :=
  { max_iterations := 3, stop_on_convergence := true,
    stop_on_success := false, min_iterations := 1 }

def itCleanRun : SQLIterationResult :=
  { iteration := 1, sql_query := "SELECT b FROM t", result := dfPlainW,
    feedback := none, has_error := false, error_message := none }

/-- C6 witness: a clean single-iteration history stops with the success
reason when `stop_on_success` is on and continues when it is off; a clean
history whose last two candidates are identical (so the convergence rule
would also apply) still stops with the success reason when
`stop_on_success` is on. -/
theorem success_stop_iff_enabled_witness :
    should_stop_iteration [itCleanRun] cfgSuccessOn
        = (true, "SQL executed successfully with valid results")
      ∧ should_stop_iteration [itCleanRun] cfgSuccessOff = (false, "")
      ∧ should_stop_iteration [itIdenticalPrev, itIdenticalCur]
          cfgSuccessAndConv
        = (true, "SQL executed successfully with valid results") :=
  ⟨(success_stop_iff_enabled [itCleanRun] cfgSuccessOn itCleanRun [] rfl
      (by decide) (by decide) rfl rfl (by decide)).1.mpr rfl,
    (success_stop_iff_enabled [itCleanRun] cfgSuccessOff itCleanRun [] rfl
      (by decide) (by decide) rfl rfl (by decide)).2 rfl
      (fun p hp => by cases hp),
    (success_stop_iff_enabled [itIdenticalPrev, itIdenticalCur]
      cfgSuccessAndConv itIdenticalCur [itIdenticalPrev] rfl (by decide)
      (by decide) rfl rfl (by decide)).1.mpr rfl⟩

lemma refineLoop_no_indexError {ε : Type} (db_path question schema : String)
    (config : SQLWorkflowConfig) (ex : String → String → DataFrame)
    (ev : String → String → DataFrame → String → String →
      Except ε (String × String)) :
    ∀ (nums : List Int) (iterations : List SQLIterationResult)
      (psql : String) (pdf : DataFrame),
      refineLoop db_path question schema config ex ev nums iterations psql pdf
        ≠ .error .indexError := by
  intro nums
  induction nums with
  | nil =>
    intro iterations psql pdf h
    simp [refineLoop] at h
  | cons n rest ih =>
    intro iterations psql pdf h
    unfold refineLoop at h
    cases hev : ev question psql pdf schema config.evaluation_model with
    | error e => rw [hev] at h; simp at h
    | ok p =>
      obtain ⟨feedback, refined_sql⟩ := p
      rw [hev] at h
      dsimp only at h
      cases hss : should_stop_iteration
          (iterations ++ [refinedRecord n refined_sql (ex refined_sql db_path)
            feedback]) config with
      | mk stop reason =>
        rw [hss] at h
        cases stop with
        | true => simp at h
        | false => exact ih _ refined_sql (ex refined_sql db_path) h

lemma chartLoop_no_indexError {ε δ γ : Type} (df : δ)
    (config : ChartWorkflowConfig) (instr : String)
    (refl_fn : String → String → String → String → String →
      Except ε (String × String))
    (exe : String → δ → Except ε γ) :
    ∀ (nums : List Int) (iterations : List (IterationResult γ))
      (pcode ppath : String),
      chartLoop df config instr refl_fn exe nums iterations pcode ppath
        ≠ .error .indexError := by
  intro nums
  induction nums with
  | nil =>
    intro iterations pcode ppath h
    simp [chartLoop] at h
  | cons n rest ih =>
    intro iterations pcode ppath h
    unfold chartLoop at h
    dsimp only at h
    cases hr : refl_fn ppath instr config.reflection_model
        (chartPath config n) pcode with
    | error e => rw [hr] at h; simp at h
    | ok p =>
      obtain ⟨feedback, candidate_code⟩ := p
      rw [hr] at h
      dsimp only at h
      split_ifs at h with hconv
      cases hx : exe candidate_code df with
      | error e => rw [hx] at h; simp at h
      | ok g =>
        rw [hx] at h
        dsimp only at h
        exact ih _ candidate_code (chartPath config n) h

/-- C2: for every run whose configuration satisfies
`1 ≤ min_iterations ≤ max_iterations`, the returned history length lies
between `min_iterations` and `max_iterations`, whatever stop reason ended
the loop. -/
theorem iteration_count_bounds {ε : Type} (db_path question : String)
    (config : SQLWorkflowConfig) (gs : String → Except ε String)
    (gen : String → String → String → Except ε String)
    (ex : String → String → DataFrame)
    (ev : String → String → DataFrame → String → String →
      Except ε (String × String)) (r : SQLWorkflowResult)
    (h1 : 1 ≤ config.min_iterations)
    (h2 : config.min_iterations ≤ config.max_iterations)
    (hok : run_adaptive_sql_workflow db_path question config gs gen ex ev
      = .ok r) :
    config.min_iterations ≤ (r.iterations.length : Int)
      ∧ (r.iterations.length : Int) ≤ config.max_iterations := by
  obtain ⟨schema, sql_v1, hgs, hgen, hcases, hmem⟩ := run_ok_cases hok
  rcases hcases with ⟨hss, hit⟩ | ⟨hss, hloop⟩
  · have hb := should_stop_length hss
    rw [hit]
    simp only [List.length_singleton, Nat.cast_one] at hb ⊢
    constructor <;> omega
  · refine refineLoop_bounds db_path question schema config ex ev h2
      (intRange 2 (config.max_iterations + 1))
      [initialRecord sql_v1 (ex sql_v1 db_path)] sql_v1
      (ex sql_v1 db_path) r.iterations r.stop_reason ?_ ?_ hloop
    · simp only [List.length_singleton, Nat.cast_one]
      norm_num
    · simp only [List.length_singleton, Nat.cast_one]
      omega

def gsW : String → Except String String := fun _ => .ok "CREATE TABLE t(name)"

def genW : String → String → String → Except String String :=
  fun _ _ _ => .ok "SELECT name FROM t"

def exRowsW : String → String → DataFrame := fun _ _ => dfPlainW

def evIdW : String → String → DataFrame → String → String →
    Except String (String × String) :=
  fun _ sql _ _ _ => .ok ("", sql)

def cfgDefaultW : SQLWorkflowConfig := {}

def runBoundsW : Except (WorkflowError String) SQLWorkflowResult :=
  run_adaptive_sql_workflow "db.sqlite" "list the names" cfgDefaultW gsW genW
    exRowsW evIdW

def getOkSQL (x : Except (WorkflowError String) SQLWorkflowResult) :
    SQLWorkflowResult :=
  match x with
  | .ok r => r
  | .error _ =>
    { iterations := [], best_iteration := itSucceeded, final_sql := "",
      final_result := dfPlainW, total_iterations := 0, stop_reason := "",
      success := false }

/-- C2 witness: a concrete run under the default configuration
(`min_iterations = 1`, `max_iterations = 3`) keeps its history length
within the bounds. -/
theorem iteration_count_bounds_witness :
    cfgDefaultW.min_iterations ≤ ((getOkSQL runBoundsW).iterations.length : Int)
      ∧ ((getOkSQL runBoundsW).iterations.length : Int)
        ≤ cfgDefaultW.max_iterations :=
  iteration_count_bounds "db.sqlite" "list the names" cfgDefaultW gsW genW
    exRowsW evIdW (getOkSQL runBoundsW) (by decide) (by decide) rfl

/-- C9: Index contiguity: in both the SQL and the chart workflow, every
successful run returns a history whose record at position `i` carries
iteration index `i + 1` — indices are `1, 2, 3, ...` with no gaps,
regardless of stop reason. -/
theorem index_contiguity {ε ε2 δ γ : Type} (db_path question : String)
    (config : SQLWorkflowConfig) (gs : String → Except ε String)
    (gen : String → String → String → Except ε String)
    (ex : String → String → DataFrame)
    (ev : String → String → DataFrame → String → String →
      Except ε (String × String))
    (df : δ) (instruction : Option String) (ccfg : ChartWorkflowConfig)
    (sug : δ → String) (cgen : String → String → String → Except ε2 String)
    (cexe : String → δ → Except ε2 γ)
    (crefl : String → String → String → String → String →
      Except ε2 (String × String)) :
    (∀ r, run_adaptive_sql_workflow db_path question config gs gen ex ev
        = .ok r →
      indicesContiguous (fun it => it.iteration) r.iterations)
    ∧ (∀ a, run_reflection_workflow df instruction ccfg sug cgen cexe crefl
        = .ok a →
      indicesContiguous (fun it => it.iteration) a.iterations) := by
  constructor
  · intro r hok
    obtain ⟨schema, sql_v1, hgs, hgen, hcases, hmem⟩ := run_ok_cases hok
    have hctg1 : indicesContiguous (fun it => it.iteration)
        [initialRecord sql_v1 (ex sql_v1 db_path)] := by
      intro i hi
      simp only [List.length_singleton] at hi
      have h0 : i = 0 := by omega
      subst h0
      simp [initialRecord]
    rcases hcases with ⟨hss, hit⟩ | ⟨hss, hloop⟩
    · rw [hit]
      exact hctg1
    · refine refineLoop_contig db_path question schema config ex ev
        (config.max_iterations + 1) (intRange 2 (config.max_iterations + 1))
        [initialRecord sql_v1 (ex sql_v1 db_path)] sql_v1
        (ex sql_v1 db_path) r.iterations r.stop_reason ?_ hctg1 hloop
      simp only [List.length_singleton, Nat.cast_one]
      norm_num
  · intro a hok
    obtain ⟨code_v1, g1, hgen, hexe, hloop⟩ := chart_run_ok_cases hok
    have hctg1 : indicesContiguous (fun it => it.iteration)
        [initialChartRecord code_v1 (chartPath ccfg 1) g1] := by
      intro i hi
      simp only [List.length_singleton] at hi
      have h0 : i = 0 := by omega
      subst h0
      simp [initialChartRecord]
    refine chartLoop_contig df ccfg (resolveInstruction instruction sug df)
      crefl cexe (max 1 ccfg.max_iterations + 1)
      (intRange 2 (max 1 ccfg.max_iterations + 1))
      [initialChartRecord code_v1 (chartPath ccfg 1) g1] code_v1
      (chartPath ccfg 1) a.iterations ?_ hctg1 hloop
    simp only [List.length_singleton, Nat.cast_one]
    norm_num

def sugW : Unit → String := fun _ => "plot the totals"

def cgenW : String → String → String → Except String String :=
  fun _ _ _ => .ok "plt.bar(df)"

def cexeW : String → Unit → Except String Unit := fun _ _ => .ok ()

def creflW : String → String → String → String → String →
    Except String (String × String) :=
  fun _ _ _ _ original_code =>
    .ok ("use larger axis labels", original_code ++ " # bigger labels")

def ccfgW : ChartWorkflowConfig :=
  { generation_model := "m", reflection_model := "m" }

def runChartW : Except (WorkflowError String) (WorkflowArtifacts Unit) :=
  run_reflection_workflow () (some "bars by coffee type") ccfgW sugW cgenW
    cexeW creflW

def getOkChart (x : Except (WorkflowError String) (WorkflowArtifacts Unit)) :
    WorkflowArtifacts Unit :=
  match x with
  | .ok a => a
  | .error _ => { instruction := "", iterations := [], final_code_path := none }

/-- C9 witness: concrete SQL and chart runs whose histories carry indices
`1, 2, ...` position by position. -/
theorem index_contiguity_witness :
    indicesContiguous (fun it => it.iteration)
        (getOkSQL runBoundsW).iterations
      ∧ indicesContiguous (fun it => it.iteration)
        (getOkChart runChartW).iterations :=
  ⟨(index_contiguity "db.sqlite" "list the names" cfgDefaultW gsW genW
      exRowsW evIdW () (some "bars by coffee type") ccfgW sugW cgenW cexeW
      creflW).1 (getOkSQL runBoundsW) rfl,
    (index_contiguity "db.sqlite" "list the names" cfgDefaultW gsW genW
      exRowsW evIdW () (some "bars by coffee type") ccfgW sugW cgenW cexeW
      creflW).2 (getOkChart runChartW) rfl⟩

/-- C10 (implicit): the history is never empty, even for out-of-range
configurations (such as `max_iterations ≤ 0`): the first record is appended
before any stop check (the chart workflow additionally clamps the loop
bound via `max 1 config.max_iterations`), so the final selections that
index `iterations[-1]` never raise: neither run can return `indexError`,
and every successful run has at least one record. -/
theorem history_never_empty {ε ε2 δ γ : Type} (db_path question : String)
    (config : SQLWorkflowConfig) (gs : String → Except ε String)
    (gen : String → String → String → Except ε String)
    (ex : String → String → DataFrame)
    (ev : String → String → DataFrame → String → String →
      Except ε (String × String))
    (df : δ) (instruction : Option String) (ccfg : ChartWorkflowConfig)
    (sug : δ → String) (cgen : String → String → String → Except ε2 String)
    (cexe : String → δ → Except ε2 γ)
    (crefl : String → String → String → String → String →
      Except ε2 (String × String)) :
    (run_adaptive_sql_workflow db_path question config gs gen ex ev
      ≠ .error .indexError)
    ∧ (∀ r, run_adaptive_sql_workflow db_path question config gs gen ex ev
        = .ok r → 1 ≤ r.iterations.length)
    ∧ (run_reflection_workflow df instruction ccfg sug cgen cexe crefl
      ≠ .error .indexError)
    ∧ (∀ a, run_reflection_workflow df instruction ccfg sug cgen cexe crefl
        = .ok a → 1 ≤ a.iterations.length) := by
  refine ⟨?_, ?_, ?_, ?_⟩
  · intro h
    unfold run_adaptive_sql_workflow at h
    cases hgs : gs db_path with
    | error e => rw [hgs] at h; simp at h
    | ok schema =>
      rw [hgs] at h
      dsimp only at h
      cases hgen : gen question schema config.generation_model with
      | error e => rw [hgen] at h; simp at h
      | ok sql_v1 =>
        rw [hgen] at h
        dsimp only at h
        cases hss : should_stop_iteration
            [initialRecord sql_v1 (ex sql_v1 db_path)] config with
        | mk stop reason =>
          rw [hss] at h
          cases stop with
          | true => exact build_result_ne_indexError (by simp) h
          | false =>
            cases hloop : refineLoop db_path question schema config ex ev
                (intRange 2 (config.max_iterations + 1))
                [initialRecord sql_v1 (ex sql_v1 db_path)] sql_v1
                (ex sql_v1 db_path) with
            | error e2 =>
              rw [hloop] at h
              dsimp only at h
              injection h with h2
              rw [h2] at hloop
              exact refineLoop_no_indexError db_path question schema config
                ex ev _ _ sql_v1 _ hloop
            | ok p =>
              obtain ⟨iters, reason2⟩ := p
              rw [hloop] at h
              dsimp only at h
              have hl := refineLoop_length_le db_path question schema config
                ex ev _ _ sql_v1 _ iters reason2 hloop
              simp only [List.length_singleton] at hl
              refine build_result_ne_indexError ?_ h
              intro hnil
              rw [hnil] at hl
              simp at hl
  · intro r hok
    obtain ⟨schema, sql_v1, hgs, hgen, hcases, hmem⟩ := run_ok_cases hok
    rcases hcases with ⟨hss, hit⟩ | ⟨hss, hloop⟩
    · rw [hit]
      simp
    · have hl := refineLoop_length_le db_path question schema config ex ev
        _ _ sql_v1 _ r.iterations r.stop_reason hloop
      simp only [List.length_singleton] at hl
      omega
  · intro h
    unfold run_reflection_workflow at h
    dsimp only at h
    cases hgen : cgen (resolveInstruction instruction sug df)
        ccfg.generation_model (chartPath ccfg 1) with
    | error e => rw [hgen] at h; simp at h
    | ok code_v1 =>
      rw [hgen] at h
      dsimp only at h
      cases hexe : cexe code_v1 df with
      | error e => rw [hexe] at h; simp at h
      | ok g1 =>
        rw [hexe] at h
        dsimp only at h
        cases hloop : chartLoop df ccfg
            (resolveInstruction instruction sug df) crefl cexe
            (intRange 2 (max 1 ccfg.max_iterations + 1))
            [initialChartRecord code_v1 (chartPath ccfg 1) g1] code_v1
            (chartPath ccfg 1) with
        | error e2 =>
          rw [hloop] at h
          dsimp only at h
          injection h with h2
          rw [h2] at hloop
          exact chartLoop_no_indexError df ccfg
            (resolveInstruction instruction sug df) crefl cexe _ _ code_v1 _
            hloop
        | ok iters =>
          rw [hloop] at h
          dsimp only at h
          have hl := chartLoop_length_le df ccfg
            (resolveInstruction instruction sug df) crefl cexe _ _ code_v1 _
            iters hloop
          simp only [List.length_singleton] at hl
          cases hsave : ccfg.save_final_code with
          | true =>
            rw [hsave] at h
            simp only [if_true] at h
            cases hlast : iters.getLast? with
            | none =>
              cases iters with
              | nil => simp at hl
              | cons z zs => simp [List.getLast?_eq_getLast] at hlast
            | some z => rw [hlast] at h; simp at h
          | false =>
            rw [hsave] at h
            simp only [Bool.false_eq_true, if_false] at h
            simp at h
  · intro a hok
    obtain ⟨code_v1, g1, hgen, hexe, hloop⟩ := chart_run_ok_cases hok
    have hl := chartLoop_length_le df ccfg
      (resolveInstruction instruction sug df) crefl cexe _ _ code_v1 _
      a.iterations hloop
    simp only [List.length_singleton] at hl
    omega

def cfgZeroW : SQLWorkflowConfig := { max_iterations := 0 }

def ccfgZeroW : ChartWorkflowConfig :=
  { generation_model := "m", reflection_model := "m", max_iterations := 0 }

/-- C10 witness: even with the out-of-range `max_iterations = 0`, neither
workflow raises on an empty history. -/
theorem history_never_empty_witness :
    (run_adaptive_sql_workflow "db.sqlite" "list the names" cfgZeroW gsW genW
      exRowsW evIdW ≠ .error .indexError)
    ∧ (run_reflection_workflow () (some "bars by coffee type") ccfgZeroW sugW
      cgenW cexeW creflW ≠ .error .indexError) :=
  ⟨(history_never_empty "db.sqlite" "list the names" cfgZeroW gsW genW
      exRowsW evIdW () (some "bars by coffee type") ccfgZeroW sugW cgenW
      cexeW creflW).1,
    (history_never_empty "db.sqlite" "list the names" cfgZeroW gsW genW
      exRowsW evIdW () (some "bars by coffee type") ccfgZeroW sugW cgenW
      cexeW creflW).2.2.1⟩

def cfgChartC5 : ChartWorkflowConfig :=
  { generation_model := "m", reflection_model := "m", max_iterations := 3,
    save_final_code := false }

def creflIdentC5 : String → String → String → String → String →
    Except String (String × String) :=
  fun _ _ _ _ original_code => .ok ("tighten the layout", original_code)

def runChartC5 : Except (WorkflowError String) (WorkflowArtifacts Unit) :=
  run_reflection_workflow () (some "scatter plot") cfgChartC5 sugW cgenW
    cexeW creflIdentC5

/-- C5 counterexample: a chart run whose reflection returns a candidate
identical to the previous one at iteration 2 stops with a single-record
history `[index 1]` — the newly produced candidate is never executed or
appended, because the chart workflow consults the convergence check before
appending. Under the claim the history would hold records `[1, 2]`. -/
theorem chart_convergence_skips_append :
    runChartC5.map (fun a => a.iterations.map (fun it => it.iteration))
      = .ok [1] := rfl

/-- C5 (amended): in the SQL workflow the candidate produced in a
refinement iteration is executed and appended before the stop decision is
consulted; consequently an SQL run that stops with the converged-identical
reason carries the newest candidate as the last record of its history
(equal, after stripping, to the record before it). In the chart workflow
the convergence check precedes execution and append, so the identical
candidate is not appended there. -/
theorem sql_converged_last_record {ε : Type} (db_path question : String)
    (config : SQLWorkflowConfig) (gs : String → Except ε String)
    (gen : String → String → String → Except ε String)
    (ex : String → String → DataFrame)
    (ev : String → String → DataFrame → String → String →
      Except ε (String × String)) (r : SQLWorkflowResult)
    (hok : run_adaptive_sql_workflow db_path question config gs gen ex ev
      = .ok r)
    (hreason : r.stop_reason = "SQL query converged (identical to previous)") :
    ∃ current previous rest2,
      r.iterations.reverse = current :: previous :: rest2
      ∧ r.iterations.getLast? = some current
      ∧ pyStrip current.sql_query = pyStrip previous.sql_query := by
  obtain ⟨schema, sql_v1, hgs, hgen, hcases, hmem⟩ := run_ok_cases hok
  have hss2 : should_stop_iteration r.iterations config
      = (true, r.stop_reason) ∨ r.stop_reason = "Max iterations reached" := by
    rcases hcases with ⟨hss, hit⟩ | ⟨hss, hloop⟩
    · rw [hit]
      exact Or.inl hss
    · exact refineLoop_reason db_path question schema config ex ev _ _
        sql_v1 _ _ _ hloop
  rcases hss2 with hss2 | hbad
  · rw [hreason] at hss2
    obtain ⟨c, p, rest2, hrev, hident⟩ := should_stop_converged hss2
    refine ⟨c, p, rest2, hrev, ?_, hident⟩
    rw [← List.head?_reverse, hrev]
    rfl
  · rw [hreason] at hbad
    exact absurd hbad (by decide)

def exEmptyW : String → String → DataFrame := fun _ _ => dfEmptyRes

def evConvW : String → String → DataFrame → String → String →
    Except String (String × String) :=
  fun _ sql _ _ _ => .ok ("add an alias", " " ++ sql ++ " ")

def runConvW : Except (WorkflowError String) SQLWorkflowResult :=
  run_adaptive_sql_workflow "db.sqlite" "list the names" cfgDefaultW gsW genW
    exEmptyW evConvW

/-- C5 witness: a concrete SQL run stopping on the converged-identical
reason has the identical newest candidate as its last history record. -/
theorem sql_converged_last_record_witness :
    ∃ current previous rest2,
      (getOkSQL runConvW).iterations.reverse = current :: previous :: rest2
      ∧ (getOkSQL runConvW).iterations.getLast? = some current
      ∧ pyStrip current.sql_query = pyStrip previous.sql_query :=
  sql_converged_last_record "db.sqlite" "list the names" cfgDefaultW gsW genW
    exEmptyW evConvW (getOkSQL runConvW) rfl rfl

def cfgFiveIters : SQLWorkflowConfig := { max_iterations := 5 }

def evC7 : String → String → DataFrame → String → String →
    Except String (String × String) :=
  fun _ sql _ _ _ =>
    if sql == "SELECT name FROM t" then
      .ok ("needs work", "SELECT name, id FROM t")
    else .error "producer failed"

def runC7 : Except (WorkflowError String) SQLWorkflowResult :=
  run_adaptive_sql_workflow "db.sqlite" "list the names" cfgFiveIters gsW
    genW exEmptyW evC7

/-- C7 counterexample: with `max_iterations = 5` and the producer/refiner
call failing on iteration 3 (after two recorded iterations), the run does
not return a result with stop reason "producer_exhausted" and a 2-record
history — the failure propagates out of `run_adaptive_sql_workflow` as an
error and no history is returned at all. -/
theorem producer_failure_iter3_propagates :
    runC7 = .error (.external "producer failed") := rfl

/-- C7 (amended): a failure of the producer/refiner call on any refinement
iteration (iteration ≥ 2, i.e. inside `refineLoop`) is fatal: the loop — and
with it `run_adaptive_sql_workflow`, which returns the loop's error
unchanged — propagates the failure to the caller; no stop reason or
truncated history is produced. -/
theorem producer_failure_fatal {ε : Type} (db_path question schema : String)
    (config : SQLWorkflowConfig) (ex : String → String → DataFrame)
    (ev : String → String → DataFrame → String → String →
      Except ε (String × String)) (n : Int) (rest : List Int)
    (iterations : List SQLIterationResult) (psql : String) (pdf : DataFrame)
    (e : ε)
    (hfail : ev question psql pdf schema config.evaluation_model = .error e) :
    refineLoop db_path question schema config ex ev (n :: rest) iterations
      psql pdf = .error (.external e) := by
  unfold refineLoop
  rw [hfail]

/-- C7 witness: the loop with the concrete failing producer of the C7 run
propagates the failure from any loop state. -/
theorem producer_failure_fatal_witness :
    refineLoop "db.sqlite" "list the names" "CREATE TABLE t(name)"
      cfgFiveIters exEmptyW evC7 [3] [itConvPrev, itConvCur]
      "SELECT name, id FROM t" dfEmptyRes
      = .error (.external "producer failed") :=
  producer_failure_fatal "db.sqlite" "list the names" "CREATE TABLE t(name)"
    cfgFiveIters exEmptyW evC7 3 [] [itConvPrev, itConvCur]
    "SELECT name, id FROM t" dfEmptyRes "producer failed" rfl

def evC8 : String → String → DataFrame → String → String →
    Except String (String × String) :=
  fun _ _ _ _ _ => .error "evaluator failed"

def runC8 : Except (WorkflowError String) SQLWorkflowResult :=
  run_adaptive_sql_workflow "db.sqlite" "list the names" cfgDefaultW gsW genW
    exEmptyW evC8

/-- C8 counterexample: when the evaluate-and-refine call fails on the first
refinement iteration, the run does not downgrade the failure to empty
feedback and return a result — it propagates the failure as an error. -/
theorem evaluator_failure_iter2_propagates :
    runC8 = .error (.external "evaluator failed") := rfl

/-- C8 (amended): a failure of the evaluator (the fused evaluate-and-refine
call) on a refinement iteration aborts the run: when the loop is entered
(the stop decision after iteration 1 is CONTINUE and `max_iterations ≥ 2`)
and the iteration-2 call fails, `run_adaptive_sql_workflow` propagates the
error; the failure is not converted into absent feedback. -/
theorem evaluator_failure_fatal {ε : Type} (db_path question : String)
    (config : SQLWorkflowConfig) (gs : String → Except ε String)
    (gen : String → String → String → Except ε String)
    (ex : String → String → DataFrame)
    (ev : String → String → DataFrame → String → String →
      Except ε (String × String)) (schema sql_v1 : String) (e : ε)
    (hschema : gs db_path = .ok schema)
    (hgen : gen question schema config.generation_model = .ok sql_v1)
    (hnostop : (should_stop_iteration
      [initialRecord sql_v1 (ex sql_v1 db_path)] config).1 = false)
    (hmax : 2 ≤ config.max_iterations)
    (hev : ev question sql_v1 (ex sql_v1 db_path) schema
      config.evaluation_model = .error e) :
    run_adaptive_sql_workflow db_path question config gs gen ex ev
      = .error (.external e) := by
  unfold run_adaptive_sql_workflow
  rw [hschema]
  dsimp only
  rw [hgen]
  dsimp only
  have hl : refineLoop db_path question schema config ex ev
      (intRange 2 (config.max_iterations + 1))
      [initialRecord sql_v1 (ex sql_v1 db_path)] sql_v1
      (ex sql_v1 db_path) = .error (.external e) := by
    rw [intRange_cons (by omega)]
    unfold refineLoop
    rw [hev]
  cases hss : should_stop_iteration
      [initialRecord sql_v1 (ex sql_v1 db_path)] config with
  | mk stop reason =>
    rw [hss] at hnostop
    cases stop with
    | true => simp at hnostop
    | false =>
      dsimp only
      rw [hl]

/-- C8 witness: the concrete always-failing evaluator aborts the concrete
run with its error. -/
theorem evaluator_failure_fatal_witness :
    run_adaptive_sql_workflow "db.sqlite" "list the names" cfgDefaultW gsW
      genW exEmptyW evC8 = .error (.external "evaluator failed") :=
  evaluator_failure_fatal "db.sqlite" "list the names" cfgDefaultW gsW genW
    exEmptyW evC8 "CREATE TABLE t(name)" "SELECT name FROM t"
    "evaluator failed" rfl rfl rfl (by decide) rfl

end AgenticReflection
